import Mathlib

/-!
Shallow embedding of the try-catch result wrapper and the axios-backed
HTTP client facade (src/src/try-catch.ts: tryCatch, HttpClient).
The dynamic parts of the TypeScript runtime that the code relies on
(truthiness tests, property reads that throw on null or undefined,
the nullish-coalescing and logical-or operators, object spread) are
modelled explicitly on a small universe of JavaScript values.
-/

namespace HttpWrapper

/-- A JavaScript runtime value, as far as the facade code observes it:
the two nullish values, booleans, numbers (integral model), strings and
plain objects given as an association list of own properties. -/
inductive JSVal where
  | undefined : JSVal
  | null : JSVal
  | boolean (b : Bool) : JSVal
  | number (n : Int) : JSVal
  | string (s : String) : JSVal
  | object (fields : List (String × JSVal)) : JSVal

/-- JavaScript truthiness: undefined, null, false, 0 and the empty string
are falsy; every object is truthy. -/
def truthy : JSVal → Bool
  | .undefined => false
  | .null => false
  | .boolean b => b
  | .number n => n != 0
  | .string s => s != ""
  | .object _ => true

/-- Is the value null or undefined (a nullish value). -/
def isNullish : JSVal → Bool
  | .undefined => true
  | .null => true
  | _ => false

/-- First-match lookup of an own property in an object field list. -/
def lookupField : List (String × JSVal) → String → Option JSVal
  | [], _ => none
  | (k, v) :: rest, key => if k = key then some v else lookupField rest key

/-- The only runtime exception the embedded code can raise: reading a
property of null or undefined. -/
inductive JSError where
  | typeError : JSError
deriving DecidableEq

/-- Property read `a.k`: throws on nullish `a`, looks up own properties on
objects, yields undefined on other primitives (none of the properties the
facade reads exist on primitive prototypes). -/
def getProp : JSVal → String → Except JSError JSVal
  | .undefined, _ => .error .typeError
  | .null, _ => .error .typeError
  | .object fs, key => .ok ((lookupField fs key).getD .undefined)
  | _, _ => .ok .undefined

/-- Optional chaining `a?.k`: yields undefined on nullish `a`, otherwise a
plain property read. -/
def optChain (v : JSVal) (key : String) : Except JSError JSVal :=
  match v with
  | .undefined => .ok .undefined
  | .null => .ok .undefined
  | _ => getProp v key

/-- Nullish coalescing `a ?? b`. -/
def nullishOr (a b : JSVal) : JSVal :=
  match a with
  | .undefined => b
  | .null => b
  | _ => a

/-- Logical or `a || b`. -/
def orOr (a b : JSVal) : JSVal :=
  if truthy a then a else b

/-- A settled asynchronous operation: the promise either resolved with a
value or rejected with a value. -/
inductive Outcome (T E : Type) where
  | resolved (v : T) : Outcome T E
  | rejected (e : E) : Outcome T E

/-- The tagged union returned by the result wrapper: `Success` carries only
`result`, `Failure` carries only `error` (try-catch.ts, types Success,
Failure, Result). -/
inductive Result (T E : Type) where
  | success (result : T) : Result T E
  | failure (error : E) : Result T E

/-- The `result` property of a Result value (absent on the failure shape). -/
def Result.resultField : Result T E → Option T
  | .success v => some v
  | .failure _ => none

/-- The `error` property of a Result value (absent on the success shape). -/
def Result.errorField : Result T E → Option E
  | .success _ => none
  | .failure e => some e

/-- try-catch.ts, tryCatch: awaits the operation; a resolution becomes
`{ result: data }`, a caught rejection becomes `{ error }`. Totality of
this function is the never-throws guarantee of the wrapper. -/
def tryCatch : Outcome T E → Result T E
  | .resolved v => .success v
  | .rejected e => .failure e

/-- The Result value as the JavaScript object the client code inspects:
the success shape has only a `result` key, the failure shape only an
`error` key. -/
def Result.toJS : Result JSVal JSVal → JSVal
  | .success v => .object [("result", v)]
  | .failure e => .object [("error", e)]

/-- HTTP verb (type HttpMethod). -/
inductive HttpMethod where
  | GET : HttpMethod
  | POST : HttpMethod
  | PUT : HttpMethod
  | PATCH : HttpMethod
  | DELETE : HttpMethod
deriving DecidableEq

/-- Value object describing one call (type HttpRequest). Absent optional
fields are `none`. The body type is kept at the JS value level. -/
structure HttpRequest where
  method : HttpMethod
  url : String
  headers : Option (List (String × String))
  params : Option (List (String × JSVal))
  body : Option JSVal

/-- The argument object `{ method, url, headers, params, data }` handed to
the transport request operation. -/
structure TransportArgs where
  method : HttpMethod
  url : String
  headers : Option (List (String × String))
  params : Option (List (String × JSVal))
  data : Option JSVal

/-- The facade: owns one configured transport instance, modelled as the
function from the request arguments to the settled outcome of the
transport promise. -/
structure HttpClient where
  axiosInstance : TransportArgs → Outcome JSVal JSVal

/-- try-catch.ts, HttpClient.request (the internal request operation):
destructures the config, invokes the transport through tryCatch, then maps
the wrapped outcome. The failure branch is taken when the `error` property
of the wrapped result is truthy and builds a response from
`error.status ?? 500`, from `error.response?.headers` with an empty object
as fallback, and from the error value itself; the success branch builds
`{ status, headers, data }` from the `result` property. A raised TypeError
models the async method returning a rejected promise. -/
def HttpClient.request (c : HttpClient) (config : HttpRequest) :
    Except JSError JSVal := do
  let outcome := c.axiosInstance ({ method := config.method, url := config.url,
                                    headers := config.headers,
                                    params := config.params,
                                    data := config.body })
  let axiosResponse := (tryCatch outcome).toJS
  let errField ← getProp axiosResponse "error"
  if truthy errField then
    let errStatus ← getProp errField "status"
    let errResponse ← getProp errField "response"
    let respHeaders ← optChain errResponse "headers"
    return .object [("status", nullishOr errStatus (.number 500)),
                    ("headers", orOr respHeaders (.object [])),
                    ("error", errField)]
  else
    let res ← getProp axiosResponse "result"
    let st ← getProp res "status"
    let hd ← getProp res "headers"
    let da ← getProp res "data"
    return .object [("status", st), ("headers", hd), ("data", da)]

/-- HttpClient.get: delegates to request with method GET, the given url,
params and headers, and no body. -/
def HttpClient.get (c : HttpClient) (url : String)
    (params : Option (List (String × JSVal)))
    (headers : Option (List (String × String))) : Except JSError JSVal :=
  c.request ({ method := .GET, url := url, params := params,
               headers := headers, body := none })

/-- HttpClient.post: delegates to request with method POST, the given url,
body and headers, and no params. -/
def HttpClient.post (c : HttpClient) (url : String) (body : Option JSVal)
    (headers : Option (List (String × String))) : Except JSError JSVal :=
  c.request ({ method := .POST, url := url, body := body,
               headers := headers, params := none })

/-- HttpClient.put: delegates to request with method PUT, the given url,
body and headers, and no params. -/
def HttpClient.put (c : HttpClient) (url : String) (body : Option JSVal)
    (headers : Option (List (String × String))) : Except JSError JSVal :=
  c.request ({ method := .PUT, url := url, body := body,
               headers := headers, params := none })

/-- HttpClient.patch: delegates to request with method PATCH, the given
url, body and headers, and no params. -/
def HttpClient.patch (c : HttpClient) (url : String) (body : Option JSVal)
    (headers : Option (List (String × String))) : Except JSError JSVal :=
  c.request ({ method := .PATCH, url := url, body := body,
               headers := headers, params := none })

/-- HttpClient.delete: delegates to request with method DELETE, the given
url and headers, and neither params nor body. -/
def HttpClient.delete (c : HttpClient) (url : String)
    (headers : Option (List (String × String))) : Except JSError JSVal :=
  c.request ({ method := .DELETE, url := url, headers := headers,
               params := none, body := none })

/-- One assignment step of object spread: overwrite the value of an
existing key in place, otherwise append the new property. -/
def setKey : List (String × JSVal) → String → JSVal → List (String × JSVal)
  | [], key, v => [(key, v)]
  | (k, w) :: rest, key, v =>
    if k = key then (key, v) :: rest else (k, w) :: setKey rest key v

/-- Object spread `{ ...base, ...extra }` at the field-list level: the
properties of `extra` are assigned over `base` in order. -/
def spreadInto (base extra : List (String × JSVal)) : List (String × JSVal) :=
  extra.foldl (fun acc kv => setKey acc kv.1 kv.2) base

/-- HttpClient constructor, the object `{ baseURL, ...options }` passed to
the transport factory: the positional base URL first, then the options bag
spread over it (spreading an absent bag adds nothing). -/
def HttpClient.createConfig (baseURL : String)
    (options : Option (List (String × JSVal))) : List (String × JSVal) :=
  match options with
  | none => [("baseURL", .string baseURL)]
  | some opts => spreadInto [("baseURL", .string baseURL)] opts

/-- Modelled from the spec (collaborator contract, external to the facade):
the shape the transport resolves with, `{ status, headers, data }`. -/
structure AxiosResponseVal where
  status : Int
  headers : List (String × String)
  data : JSVal

/-- A string-to-string header mapping as a JS object. -/
def jsHeaders (h : List (String × String)) : JSVal :=
  .object (h.map (fun kv => (kv.1, .string kv.2)))

/-- The resolved transport response as the JS object the facade reads. -/
def AxiosResponseVal.toJS (r : AxiosResponseVal) : JSVal :=
  .object [("status", .number r.status), ("headers", jsHeaders r.headers),
           ("data", r.data)]

/-- Modelled from the spec (collaborator contract, external to the facade):
the failure object the transport rejects with, an error object that may
carry a direct `status` and may carry a nested `response`. -/
structure AxiosErrorVal where
  message : String
  status : Option Int
  response : Option AxiosResponseVal

/-- The failure object as the JS object the facade reads: a `message`
property always, a `status` and a `response` property only when carried. -/
def AxiosErrorVal.toJS (e : AxiosErrorVal) : JSVal :=
  .object
    ([("message", .string e.message)]
      ++ (match e.status with
          | some s => [("status", JSVal.number s)]
          | none => [])
      ++ (match e.response with
          | some r => [("response", r.toJS)]
          | none => []))

/-- The `status` field of a returned HttpResponse, when the call resolved
with an object. -/
def responseStatus : Except JSError JSVal → Option JSVal
  | .ok (.object fs) => lookupField fs "status"
  | _ => none

/-- The `headers` field of a returned HttpResponse, when the call resolved
with an object. -/
def responseHeaders : Except JSError JSVal → Option JSVal
  | .ok (.object fs) => lookupField fs "headers"
  | _ => none

/-- The `data` field of a returned HttpResponse, when the call resolved
with an object. -/
def responseData : Except JSError JSVal → Option JSVal
  | .ok (.object fs) => lookupField fs "data"
  | _ => none

/-- The `error` field of a returned HttpResponse, when the call resolved
with an object. -/
def responseError : Except JSError JSVal → Option JSVal
  | .ok (.object fs) => lookupField fs "error"
  | _ => none

/-- Did the call produce a value (a resolved promise) rather than raise. -/
def exceptOk : Except JSError JSVal → Bool
  | .ok _ => true
  | .error _ => false

/-- The transport outcomes on which the request mapping completes without
raising: a resolution with a non-nullish value, or a rejection with a
truthy value. -/
def okOutcome : Outcome JSVal JSVal → Bool
  | .resolved v => !(isNullish v)
  | .rejected e => truthy e

/-- The status policy stated by the spec, written from its words for
comparison with the code: the direct status of the failure if present,
else the status of the nested response if present, else 500. -/
def specStatusPolicy (e : AxiosErrorVal) : Int :=
  match e.status with
  | some s => s
  | none =>
    match e.response with
    | some r => r.status
    | none => 500

/-- The facade whose transport always yields the given outcome. -/
def constClient (o : Outcome JSVal JSVal) : HttpClient :=
  ⟨fun _ => o⟩

/-- A concrete request configuration used to instantiate theorems. -/
def cfg0 : HttpRequest :=
  { method := .GET, url := "/posts/1", headers := none,
    params := none, body := none }

/-- A failure that carries no direct status but a nested 404 response. -/
def cexErr1 : AxiosErrorVal :=
  ⟨"Request failed with status code 404", none,
    some ⟨404, [("content-type", "application/json")], .undefined⟩⟩

/-- The nested response of the second counterexample failure. -/
def cexResp2 : AxiosResponseVal :=
  ⟨418, [("x-reason", "teapot")], .null⟩

/-- A second failure carrying a nested response but no direct status. -/
def cexErr2 : AxiosErrorVal :=
  ⟨"boom", none, some cexResp2⟩

/-- A connection-level failure with neither status nor nested response. -/
def cexErr0 : AxiosErrorVal :=
  ⟨"connect ECONNREFUSED", none, none⟩

/-- Reduction of bind on a resolved Except value. -/
theorem except_bind_ok (a : α) (f : α → Except ε β) :
    (Except.ok a >>= f : Except ε β) = f a :=
  rfl

/-- Shared computation: a rejection with an AxiosErrorVal-shaped failure is
mapped to the failure response built from the direct status (500 when it is
absent) and the nested response headers (empty object when absent). -/
theorem request_rejected_axiosError (cfg : HttpRequest) (e : AxiosErrorVal) :
    (constClient (.rejected e.toJS)).request cfg =
      .ok (.object
        [("status", .number (e.status.getD 500)),
         ("headers", match e.response with
                     | some r => jsHeaders r.headers
                     | none => .object []),
         ("error", e.toJS)]) := by
  cases e with
  | mk msg st resp => cases st <;> cases resp <;> rfl

/-- Shared computation: a resolution with an AxiosResponseVal-shaped value
is mapped to the success response copying status, headers and data. -/
theorem request_resolved_axiosResponse (cfg : HttpRequest)
    (r : AxiosResponseVal) :
    (constClient (.resolved r.toJS)).request cfg =
      .ok (.object [("status", .number r.status),
                    ("headers", jsHeaders r.headers),
                    ("data", r.data)]) :=
  rfl

/-- Reduction of bind on a raised Except value. -/
theorem except_bind_error (e : ε) (f : α → Except ε β) :
    (Except.error e >>= f : Except ε β) = Except.error e :=
  rfl

/-- Shared computation: on a rejection with any truthy value the failure
branch runs, leaving the data field absent and storing the failure value
itself in the error field. -/
theorem request_rejected_truthy_fields (cfg : HttpRequest) (e : JSVal)
    (h : truthy e = true) :
    responseData ((constClient (.rejected e)).request cfg) = none ∧
    responseError ((constClient (.rejected e)).request cfg) = some e := by
  cases e with
  | undefined => simp [truthy] at h
  | null => simp [truthy] at h
  | boolean b =>
    simp only [truthy] at h
    subst h
    exact ⟨rfl, rfl⟩
  | number n =>
    simp only [truthy, bne_iff_ne, ne_eq] at h
    refine ⟨?_, ?_⟩ <;>
      simp [HttpClient.request, constClient, tryCatch, Result.toJS, getProp,
            lookupField, optChain, nullishOr, orOr, truthy, responseData,
            responseError, except_bind_ok, h]
  | string s =>
    simp only [truthy, bne_iff_ne, ne_eq] at h
    refine ⟨?_, ?_⟩ <;>
      simp [HttpClient.request, constClient, tryCatch, Result.toJS, getProp,
            lookupField, optChain, nullishOr, orOr, truthy, responseData,
            responseError, except_bind_ok, h]
  | object fs =>
    refine ⟨?_, ?_⟩ <;>
    · simp only [HttpClient.request, constClient, tryCatch, Result.toJS,
                 getProp, lookupField, optChain, truthy, except_bind_ok]
      cases hresp : (lookupField fs "response").getD JSVal.undefined <;>
        simp [hresp, responseData, responseError, lookupField, nullishOr,
              orOr, truthy, except_bind_ok]

/-- Shared computation: on a rejection with any falsy value the success
branch runs and crashes reading the status of the absent result, so the
call raises a TypeError (a rejected promise). -/
theorem request_rejected_falsy (cfg : HttpRequest) (e : JSVal)
    (h : truthy e = false) :
    (constClient (.rejected e)).request cfg = .error .typeError := by
  cases e with
  | undefined => rfl
  | null => rfl
  | boolean b =>
    simp only [truthy] at h
    subst h
    rfl
  | number n =>
    simp only [truthy, bne_eq_false_iff_eq] at h
    subst h
    rfl
  | string s =>
    simp only [truthy, bne_eq_false_iff_eq] at h
    subst h
    rfl
  | object fs => simp [truthy] at h

/-- Shared computation: the call resolves exactly when the transport
outcome is a resolution with a non-nullish value or a rejection with a
truthy value; on every other outcome it raises a TypeError. -/
theorem exceptOk_request_const (cfg : HttpRequest) (o : Outcome JSVal JSVal) :
    exceptOk ((constClient o).request cfg) = okOutcome o := by
  cases o with
  | resolved v =>
    cases v <;>
      simp [HttpClient.request, constClient, tryCatch, Result.toJS, getProp,
            lookupField, optChain, nullishOr, orOr, truthy, exceptOk,
            okOutcome, isNullish, except_bind_ok, except_bind_error]
  | rejected e =>
    cases h : truthy e with
    | false =>
      rw [request_rejected_falsy cfg e h]
      simp [exceptOk, okOutcome, h]
    | true =>
      cases e with
      | undefined => simp [truthy] at h
      | null => simp [truthy] at h
      | boolean b =>
        simp only [truthy] at h
        subst h
        rfl
      | number n =>
        simp only [truthy, bne_iff_ne, ne_eq] at h
        simp [HttpClient.request, constClient, tryCatch, Result.toJS, getProp,
              lookupField, optChain, nullishOr, orOr, truthy, exceptOk,
              okOutcome, except_bind_ok, h]
      | string s =>
        simp only [truthy, bne_iff_ne, ne_eq] at h
        simp [HttpClient.request, constClient, tryCatch, Result.toJS, getProp,
              lookupField, optChain, nullishOr, orOr, truthy, exceptOk,
              okOutcome, except_bind_ok, h]
      | object fs =>
        simp only [HttpClient.request, constClient, tryCatch, Result.toJS,
                   getProp, lookupField, optChain, truthy, except_bind_ok]
        cases hresp : (lookupField fs "response").getD JSVal.undefined <;>
          simp [hresp, exceptOk, okOutcome, truthy, lookupField, nullishOr,
                orOr, except_bind_ok]

/-- Overwriting a key makes later lookups of that key see the new value. -/
theorem lookupField_setKey_self (l : List (String × JSVal)) (key : String)
    (v : JSVal) : lookupField (setKey l key v) key = some v := by
  induction l with
  | nil => simp [setKey, lookupField]
  | cons kv rest ih =>
    obtain ⟨k, w⟩ := kv
    by_cases hk : k = key
    · subst hk
      simp [setKey, lookupField]
    · simp [setKey, lookupField, hk, ih]

/-- Overwriting one key leaves lookups of other keys unchanged. -/
theorem lookupField_setKey_other (l : List (String × JSVal))
    (key key2 : String) (v : JSVal) (h : key2 ≠ key) :
    lookupField (setKey l key v) key2 = lookupField l key2 := by
  induction l with
  | nil => simp [setKey, lookupField, Ne.symm h]
  | cons kv rest ih =>
    obtain ⟨k, w⟩ := kv
    by_cases hk : k = key
    · subst hk
      simp [setKey, lookupField, Ne.symm h]
    · simp only [setKey, if_neg hk, lookupField]
      by_cases hk2 : k = key2
      · simp [hk2]
      · simp [hk2, ih]

/-- A key that occurs nowhere in the field list looks up to nothing. -/
theorem lookupField_eq_none (l : List (String × JSVal)) (key : String)
    (h : key ∉ l.map Prod.fst) : lookupField l key = none := by
  induction l with
  | nil => rfl
  | cons kv rest ih =>
    obtain ⟨k, w⟩ := kv
    simp only [List.map_cons, List.mem_cons] at h
    push_neg at h
    simp [lookupField, Ne.symm h.1, ih h.2]

/-- Spreading a duplicate-free property list over a base object: a key
found in the spread list wins, any other key falls back to the base. -/
theorem lookupField_spreadInto (extra : List (String × JSVal))
    (base : List (String × JSVal)) (key : String)
    (h : (extra.map Prod.fst).Nodup) :
    lookupField (spreadInto base extra) key =
      (match lookupField extra key with
       | some v => some v
       | none => lookupField base key) := by
  induction extra generalizing base with
  | nil => simp [spreadInto, lookupField]
  | cons kv rest ih =>
    obtain ⟨k, v⟩ := kv
    simp only [List.map_cons, List.nodup_cons] at h
    have hstep : spreadInto base ((k, v) :: rest) =
        spreadInto (setKey base k v) rest := rfl
    rw [hstep, ih (setKey base k v) h.2]
    by_cases hkey : k = key
    · subst hkey
      rw [lookupField_eq_none rest k h.1]
      simp [lookupField, lookupField_setKey_self]
    · cases hlr : lookupField rest key <;>
        simp [lookupField, hkey, hlr,
              lookupField_setKey_other base k key v (Ne.symm hkey)]

/-- C1 counterexample: for the failure cexErr1, which carries no direct
status but a nested response with status 404, the spec status policy
(direct status, else nested response status, else 500) predicts 404, yet
the code returns 500: the code never consults the nested response status. -/
theorem request_status_policy_cex :
    responseStatus ((constClient (.rejected cexErr1.toJS)).request cfg0) ≠
      some (.number (specStatusPolicy cexErr1)) := by
  intro hcontra
  have h1 : responseStatus ((constClient (.rejected cexErr1.toJS)).request cfg0)
      = some (.number 500) := rfl
  have h2 : specStatusPolicy cexErr1 = 404 := rfl
  rw [h1, h2] at hcontra
  injection hcontra with h3
  injection h3 with h4
  omega

/-- C1 (amended): the status of the response to a failed call is the
direct status code of the failure object when present and the sentinel 500
otherwise; the status of a nested response is never consulted. -/
theorem request_error_own_status (cfg : HttpRequest) (e : AxiosErrorVal) :
    responseStatus ((constClient (.rejected e.toJS)).request cfg) =
      some (.number (e.status.getD 500)) := by
  rw [request_rejected_axiosError cfg e]
  cases e.response <;> rfl

/-- C2 counterexample: cexErr2 carries the nested response cexResp2 of
status 418, yet the returned status is 500, not the nested 418. -/
theorem request_nested_status_cex :
    cexErr2.response = some cexResp2 ∧
    responseStatus ((constClient (.rejected cexErr2.toJS)).request cfg0) ≠
      some (.number cexResp2.status) := by
  refine ⟨rfl, ?_⟩
  intro hcontra
  have h1 : responseStatus ((constClient (.rejected cexErr2.toJS)).request cfg0)
      = some (.number 500) := rfl
  have h2 : cexResp2.status = 418 := rfl
  rw [h1, h2] at hcontra
  injection hcontra with h3
  injection h3 with h4
  omega

/-- C2 (amended): when the failure carries a nested response, the headers
of the returned response equal the headers of that nested response, but
the status equals the direct status of the failure when present and 500
otherwise; the nested response status is not used. -/
theorem request_nested_response_headers (cfg : HttpRequest)
    (e : AxiosErrorVal) (r : AxiosResponseVal) (h : e.response = some r) :
    responseHeaders ((constClient (.rejected e.toJS)).request cfg) =
      some (jsHeaders r.headers) ∧
    responseStatus ((constClient (.rejected e.toJS)).request cfg) =
      some (.number (e.status.getD 500)) := by
  rw [request_rejected_axiosError cfg e, h]
  exact ⟨rfl, rfl⟩

/-- C2 witness, at the concrete failure cexErr2 carrying cexResp2. -/
theorem request_nested_response_headers_witness :
    responseHeaders ((constClient (.rejected cexErr2.toJS)).request cfg0) =
      some (jsHeaders cexResp2.headers) ∧
    responseStatus ((constClient (.rejected cexErr2.toJS)).request cfg0) =
      some (.number (cexErr2.status.getD 500)) :=
  request_nested_response_headers cfg0 cexErr2 cexResp2 rfl

/-- C3: on a resolved transport call the returned response copies status,
headers and data of the resolved value verbatim and carries no error
field. -/
theorem request_success_verbatim (cfg : HttpRequest) (r : AxiosResponseVal) :
    (constClient (.resolved r.toJS)).request cfg =
      .ok (.object [("status", .number r.status),
                    ("headers", jsHeaders r.headers),
                    ("data", r.data)]) ∧
    responseError ((constClient (.resolved r.toJS)).request cfg) = none :=
  ⟨request_resolved_axiosResponse cfg r, rfl⟩

/-- C4: on a rejected transport call (rejection value truthy, as every
error object is), the returned response has no data field and its error
field is the original failure value itself, unmodified. -/
theorem request_failure_passthrough (cfg : HttpRequest) (e : JSVal)
    (h : truthy e = true) :
    responseData ((constClient (.rejected e)).request cfg) = none ∧
    responseError ((constClient (.rejected e)).request cfg) = some e :=
  request_rejected_truthy_fields cfg e h

/-- C4 witness, at the concrete connection failure cexErr0. -/
theorem request_failure_passthrough_witness :
    responseData ((constClient (.rejected cexErr0.toJS)).request cfg0) =
      none ∧
    responseError ((constClient (.rejected cexErr0.toJS)).request cfg0) =
      some cexErr0.toJS :=
  request_failure_passthrough cfg0 cexErr0.toJS rfl

/-- C5: on a failure carrying neither a direct status nor a nested
response, the returned response has status 500, empty headers and the
failure itself in the error field. -/
theorem request_failure_fallback (cfg : HttpRequest) (e : AxiosErrorVal)
    (h1 : e.status = none) (h2 : e.response = none) :
    (constClient (.rejected e.toJS)).request cfg =
      .ok (.object [("status", .number 500), ("headers", .object []),
                    ("error", e.toJS)]) := by
  rw [request_rejected_axiosError cfg e, h1, h2]
  rfl

/-- C5 witness, at the concrete connection failure cexErr0. -/
theorem request_failure_fallback_witness :
    (constClient (.rejected cexErr0.toJS)).request cfg0 =
      .ok (.object [("status", .number 500), ("headers", .object []),
                    ("error", cexErr0.toJS)]) :=
  request_failure_fallback cfg0 cexErr0 rfl rfl

/-- C6 counterexample: a GET whose transport rejects with the value
undefined makes the facade itself raise (the returned promise rejects):
the falsy error field routes the outcome to the success branch, which
reads a property of the absent result. So not every outcome of the
operation yields a resolved HttpResponse. -/
theorem verb_get_rejects_cex :
    (constClient (.rejected .undefined)).get "/posts/1" none none =
      .error .typeError :=
  rfl

/-- C6 (amended): each of the five verb methods resolves with a response
exactly when the transport outcome is a resolution with a non-nullish
value or a rejection with a truthy value; on a resolution with null or
undefined, or a rejection with a falsy value, the returned promise
rejects with a TypeError. -/
theorem verbs_resolve_iff_okOutcome (url : String)
    (params : Option (List (String × JSVal)))
    (headers : Option (List (String × String))) (body : Option JSVal)
    (o : Outcome JSVal JSVal) :
    exceptOk ((constClient o).get url params headers) = okOutcome o ∧
    exceptOk ((constClient o).post url body headers) = okOutcome o ∧
    exceptOk ((constClient o).put url body headers) = okOutcome o ∧
    exceptOk ((constClient o).patch url body headers) = okOutcome o ∧
    exceptOk ((constClient o).delete url headers) = okOutcome o :=
  ⟨exceptOk_request_const _ o, exceptOk_request_const _ o,
   exceptOk_request_const _ o, exceptOk_request_const _ o,
   exceptOk_request_const _ o⟩

/-- C7: the result wrapper maps a resolution to the success shape carrying
the resolved value and a rejection to the failure shape carrying the
failure value, and every wrapped outcome has exactly one of the result and
error fields present, never both and never neither; totality of tryCatch
is the never-raises guarantee. -/
theorem tryCatch_exclusive (T E : Type) (v : T) (e : E) (o : Outcome T E) :
    tryCatch (Outcome.resolved v) = (Result.success v : Result T E) ∧
    tryCatch (Outcome.rejected e) = (Result.failure e : Result T E) ∧
    (((tryCatch o).resultField.isSome = true ∧
        (tryCatch o).errorField = none) ∨
      ((tryCatch o).resultField = none ∧
        (tryCatch o).errorField.isSome = true)) := by
  refine ⟨rfl, rfl, ?_⟩
  cases o with
  | resolved w => exact Or.inl ⟨rfl, rfl⟩
  | rejected w => exact Or.inr ⟨rfl, rfl⟩

/-- C8: each verb delegates to the internal request operation with the
matching method and the caller url and headers; get also passes the caller
params and no body, delete passes neither params nor body, and post, put
and patch pass the caller optional body and no params. -/
theorem verbs_delegate (c : HttpClient) (url : String)
    (params : Option (List (String × JSVal)))
    (headers : Option (List (String × String))) (body : Option JSVal) :
    c.get url params headers =
      c.request ({ method := .GET, url := url, headers := headers,
                   params := params, body := none }) ∧
    c.delete url headers =
      c.request ({ method := .DELETE, url := url, headers := headers,
                   params := none, body := none }) ∧
    c.post url body headers =
      c.request ({ method := .POST, url := url, headers := headers,
                   params := none, body := body }) ∧
    c.put url body headers =
      c.request ({ method := .PUT, url := url, headers := headers,
                   params := none, body := body }) ∧
    c.patch url body headers =
      c.request ({ method := .PATCH, url := url, headers := headers,
                   params := none, body := body }) :=
  ⟨rfl, rfl, rfl, rfl, rfl⟩

/-- C9: the branch decision is the truthiness of the error field of the
wrapped outcome, not the Result variant: a rejection with a truthy value
is routed to the failure mapping, which stores that value in the error
field; a rejection with a falsy value is not routed to the failure
mapping (the success branch runs and raises a TypeError instead). -/
theorem request_branches_on_truthiness (cfg : HttpRequest) (e : JSVal) :
    (truthy e = true →
      responseError ((constClient (.rejected e)).request cfg) = some e) ∧
    (truthy e = false →
      (constClient (.rejected e)).request cfg = .error .typeError) :=
  ⟨fun h => (request_rejected_truthy_fields cfg e h).2,
   fun h => request_rejected_falsy cfg e h⟩

/-- C9 witness: a truthy rejection value (the number 7) lands in the error
field; a falsy rejection value (null) makes the call raise a TypeError. -/
theorem request_branches_on_truthiness_witness :
    responseError ((constClient (.rejected (.number 7))).request cfg0) =
      some (.number 7) ∧
    (constClient (.rejected .null)).request cfg0 = .error .typeError :=
  ⟨(request_branches_on_truthiness cfg0 (.number 7)).1 rfl,
   (request_branches_on_truthiness cfg0 .null).2 rfl⟩

/-- C10: in the constructor config the options bag is spread after the
positional base URL, so an options bag containing its own baseURL entry
overrides the positional argument, and one containing none leaves the
positional argument in place. -/
theorem createConfig_options_override (baseURL : String)
    (opts : List (String × JSVal)) (h : (opts.map Prod.fst).Nodup) :
    lookupField (HttpClient.createConfig baseURL (some opts)) "baseURL" =
      (match lookupField opts "baseURL" with
       | some v => some v
       | none => some (JSVal.string baseURL)) ∧
    lookupField (HttpClient.createConfig baseURL none) "baseURL" =
      some (JSVal.string baseURL) := by
  constructor
  · have hc : HttpClient.createConfig baseURL (some opts) =
        spreadInto [("baseURL", JSVal.string baseURL)] opts := rfl
    rw [hc, lookupField_spreadInto opts _ "baseURL" h]
    cases hl : lookupField opts "baseURL" <;> simp [hl, lookupField]
  · rfl

/-- C10 witness: an options bag carrying its own baseURL overrides the
positional base URL, and without options the positional one is used. -/
theorem createConfig_options_override_witness :
    lookupField (HttpClient.createConfig "https://a.example"
        (some [("baseURL", JSVal.string "https://b.example")]))
      "baseURL" = some (JSVal.string "https://b.example") ∧
    lookupField (HttpClient.createConfig "https://a.example" none)
      "baseURL" = some (JSVal.string "https://a.example") := by
  have h := createConfig_options_override "https://a.example"
    [("baseURL", JSVal.string "https://b.example")] (by simp)
  exact ⟨h.1, h.2⟩

end HttpWrapper
